import Mathlib

/-!
Verification of the accessor-substitution layer of `linkedin-scheduler-remote`.

The development shallowly embeds the two source files:

* `src/client_patch.py` — a per-request `LinkedInClient` slot implemented with a
  Python `ContextVar`, plus the patched ambient accessor `patched_get_client`
  and the scoped context manager `client_context`.
* `src/server.py` — the thread-local database-handle cache
  `_thread_local_get_db`, the daemon credential builder
  `_build_client_from_store`, and the daemon loop `_daemon_loop`.

Python exceptions are modelled with `Except`; the exception classes that the
daemon loop distinguishes (`RuntimeError` and everything else under
`Exception`) are modelled by `PyExc`.  Machine state that Python mutates
(the context slot, the per-thread cache, the set of closed handles) is passed
explicitly.
-/

namespace LinkedInScheduler

/-- `LinkedInClient(access_token=..., person_id=...)` from `linkedin_sdk`:
an immutable value holding the token and an optional person id. -/
structure LinkedInClient where
  access_token : String
  person_id : Option String
deriving DecidableEq, Repr

/-- The Python exception classes the daemon loop's handlers distinguish:
`RuntimeError` versus any other subclass of `Exception`. -/
inductive PyExc where
  | runtimeError (msg : String)
  | otherExc (msg : String)
deriving DecidableEq, Repr

/-! ## Credential Context Propagator (`src/client_patch.py`)

`_request_client` is a `ContextVar[LinkedInClient | None]` with default `None`.
Python `ContextVar` storage is per execution context: each logical request
(each concurrent unit of execution) runs in its own context, so the variable
denotes a map from the request identity to the value stored for that request.
`set` and `reset` write only the calling request's entry; `get` reads it. -/

/-- Identity of a logical request (one concurrent unit of execution). -/
abbrev Req := Nat

/-- The storage backing the `ContextVar`: one `LinkedInClient | None` slot per
logical request.  The default value of `_request_client` is `None`, modelled
by the slot holding `none`. -/
abbrev CtxStore := Req → Option LinkedInClient

/-- The mutating operations a request can perform on `_request_client`:
`set` installs a client for the calling request, `reset tok` restores the
previous value captured by a token (a Python `Token` records the value the
variable had before the corresponding `set`).  `get` does not mutate and is
modelled by reading the store directly. -/
inductive CtxOp where
  | set (r : Req) (c : LinkedInClient)
  | reset (r : Req) (tok : Option LinkedInClient)
deriving DecidableEq, Repr

/-- The request performing an operation. -/
def CtxOp.owner : CtxOp → Req
  | .set r _ => r
  | .reset r _ => r

/-- Effect of one operation on the `ContextVar` storage: only the calling
request's slot changes. -/
def applyCtxOp (op : CtxOp) (σ : CtxStore) : CtxStore :=
  match op with
  | .set r c => fun r' => if r' = r then some c else σ r'
  | .reset r tok => fun r' => if r' = r then tok else σ r'

/-- Run an interleaved trace of operations (from any requests, in program
order) over the storage. -/
def runCtxOps (ops : List CtxOp) (σ : CtxStore) : CtxStore :=
  ops.foldl (fun s op => applyCtxOp op s) σ

/-- `_request_client.get()` as performed inside request `r`. -/
def ctxGet (r : Req) (σ : CtxStore) : Option LinkedInClient := σ r

/-- `set_client_for_request(access_token, person_id)`: builds
`LinkedInClient(access_token=access_token, person_id=person_id)` and stores it
in the calling request's slot; returns the value placed in the slot. -/
def set_client_for_request (access_token : String) (person_id : Option String) :
    Option LinkedInClient :=
  some { access_token := access_token, person_id := person_id }

/-- `patched_get_client()`: reads the calling request's slot; raises
`RuntimeError` when it holds `None`, otherwise returns the stored client. -/
def patched_get_client (slot : Option LinkedInClient) :
    Except PyExc LinkedInClient :=
  match slot with
  | none => .error (.runtimeError
      "No LinkedInClient set for this request - is OAuth configured?")
  | some client => .ok client

/-- `client_context(access_token, person_id)`: sets the calling request's slot
to a fresh `LinkedInClient` (capturing the previous value in a token), runs the
body, and in a `finally` block resets the slot to the token's captured value.
The body receives the slot as entered and may rewrite it arbitrarily and may
raise; `client_context` returns the body's outcome paired with the slot value
after the `finally` reset. -/
def client_context {ε : Type} (access_token : String) (person_id : Option String)
    (body : Option LinkedInClient → Except ε (Option LinkedInClient))
    (slot : Option LinkedInClient) :
    Except ε Unit × Option LinkedInClient :=
  let token := slot
  let entered := some (LinkedInClient.mk access_token person_id)
  match body entered with
  | .ok _ => (Except.ok (), token)
  | .error e => (Except.error e, token)

/-! ## Thread-Affine Resource Cache (`src/server.py`, `_thread_local_get_db`)

`_thread_local = threading.local()` gives every thread its own `db` attribute;
the global state is therefore a map from thread identity to the thread's
cached `ScheduledPostsDB` (or nothing).  Handle objects are identified by a
freshness counter so that "distinct objects" and "the closed one" are
expressible; `closed` records the ids on which `close()` has been called.
`ScheduledPostsDB(resolved)` may raise; the `open_fails` oracle says for which
paths construction fails at this call. -/

/-- Identity of an operating-system thread. -/
abbrev ThreadId := Nat

/-- A `ScheduledPostsDB` object: its identity and the `_db_path` it stores. -/
structure DBHandle where
  id : Nat
  db_path : String
deriving DecidableEq, Repr

/-- Global state touched by `_thread_local_get_db`: the per-thread
`_thread_local.db` attribute, a freshness counter for handle identities, and
the identities on which `close()` has been called. -/
structure DBState where
  cache : ThreadId → Option DBHandle
  nextId : Nat
  closed : List Nat

/-- `_db_module.DB_PATH`, the external default database path. -/
def DB_PATH : String := "scheduled_posts.db"

/-- `resolved = db_path or _db_module.DB_PATH`: Python `or` takes the fallback
whenever `db_path` is falsy, i.e. `None` or the empty string. -/
def resolvePath (db_path : Option String) : String :=
  match db_path with
  | none => DB_PATH
  | some p => if p = "" then DB_PATH else p

/-- `_thread_local_get_db(db_path)` as executed by thread `t`:

```
resolved = db_path or _db_module.DB_PATH
db = getattr(_thread_local, "db", None)
if db is not None and db._db_path != resolved:
    db.close()
    db = None
if db is None:
    db = _db_module.ScheduledPostsDB(resolved)   # may raise
    _thread_local.db = db
return db
```

Note that when the constructor raises, the function exits with the exception
after having possibly closed the old handle, and `_thread_local.db` is left
holding whatever it held before (the local variable `db`, not the attribute,
was set to `None`).  Returns the call's outcome together with the state after
the call; `.error ()` is the exception propagating to the caller. -/
def _thread_local_get_db (open_fails : String → Bool) (db_path : Option String)
    (t : ThreadId) (st : DBState) : Except Unit DBHandle × DBState :=
  let resolved := resolvePath db_path
  let db0 := st.cache t
  let step1 : Option DBHandle × DBState :=
    match db0 with
    | some h =>
        if h.db_path ≠ resolved then
          (none, { st with closed := h.id :: st.closed })
        else (some h, st)
    | none => (none, st)
  match step1 with
  | (some h, st1) => (.ok h, st1)
  | (none, st1) =>
      if open_fails resolved then (.error (), st1)
      else
        let fresh : DBHandle := { id := st1.nextId, db_path := resolved }
        (.ok fresh,
          { st1 with
            cache := fun t' => if t' = t then some fresh else st1.cache t',
            nextId := st1.nextId + 1 })

/-- An open oracle under which every constructor call succeeds. -/
def openAlwaysSucceeds : String → Bool := fun _ => false

/-- A concrete cache state: thread 0 holds handle 3 for path `"a"`, other
threads hold nothing, the next fresh identity is 5, nothing closed yet. -/
def stateCachedA : DBState :=
  { cache := fun t => if t = 0 then some { id := 3, db_path := "a" } else none,
    nextId := 5,
    closed := [] }

/-- A concrete cache state with every thread's cache empty. -/
def stateEmpty : DBState :=
  { cache := fun _ => none, nextId := 0, closed := [] }

/-! ## Publisher Daemon (`src/server.py`)

`_build_client_from_store` resolves a credential from the token store and
builds the daemon's `LinkedInClient`; `_daemon_loop` runs
`_daemon_module.run_once()` each tick inside
`try/except RuntimeError/except Exception`.  The token store's
`get_any_linkedin_token()` returns `(access_token, subject)` or a falsy value,
modelled as `Option (String × Option String)`. -/

/-- `_build_client_from_store()`:

```
creds = store.get_any_linkedin_token()
if not creds:
    raise RuntimeError("No LinkedIn credentials in token store - authenticate via OAuth first")
access_token, _ = creds
return LinkedInClient(access_token=access_token)
```

The stored subject identifier is unpacked into `_` and discarded;
`LinkedInClient` is built with only `access_token`, so its `person_id` keeps
the constructor default `None`. -/
def _build_client_from_store (store : Option (String × Option String)) :
    Except PyExc LinkedInClient :=
  match store with
  | none => .error (.runtimeError
      "No LinkedIn credentials in token store - authenticate via OAuth first")
  | some (access_token, _) =>
      .ok { access_token := access_token, person_id := none }

/-- Modelled from the spec: `runOneSchedulingCycle`
(`linkedin_mcp_scheduler.daemon.run_once`, an external collaborator whose body
is not in this repository).  Per the spec, before invoking the external work
the daemon "must itself be able to resolve *a* Credential — ... it queries the
external credential store for any currently stored credential and constructs a
client from it" via the installed `_build_client`; "if none exists, the
invocation is skipped".  So `run_once` first runs `_build_client_from_store`
and, only if that yields a client, invokes the work unit with it; it "raises
on internal failure". -/
def run_once (store : Option (String × Option String))
    (workUnit : LinkedInClient → Except PyExc Unit) : Except PyExc Unit :=
  match _build_client_from_store store with
  | .error e => .error e
  | .ok client => workUnit client

/-- What one pass of the `_daemon_loop` body does with the tick's outcome. -/
inductive TickOutcome where
  | ranOk
  | skipLoggedDebug
  | failLoggedError
deriving DecidableEq, Repr

/-- Result of the `try/except` around one tick: either one of the handled
outcomes, or an exception escaping the handlers. -/
inductive TickResult where
  | completed (o : TickOutcome)
  | escaped (e : PyExc)
deriving DecidableEq, Repr

/-- The body of one iteration of `_daemon_loop`:

```
try:
    _daemon_module.run_once()
except RuntimeError as e:
    logger.debug("Daemon skipped: %s", e)
except Exception as e:
    logger.error("Daemon error: %s", e)
```

Dispatch is on the exception's class: any `RuntimeError` reaches the first
handler (`logger.debug`), any other `Exception` the second (`logger.error`). -/
def _daemon_loop_body (tick : Except PyExc Unit) : TickResult :=
  match tick with
  | .ok _ => .completed .ranOk
  | .error (.runtimeError _) => .completed .skipLoggedDebug
  | .error (.otherExc _) => .completed .failLoggedError

/-- The `while True` of `_daemon_loop`, run over a finite schedule of tick
outcomes: each iteration handles one tick with `_daemon_loop_body` and
proceeds to the next; an exception escaping the handlers would terminate the
loop. -/
def _daemon_loop : List (Except PyExc Unit) → List TickOutcome
  | [] => []
  | tick :: rest =>
      match _daemon_loop_body tick with
      | .completed o => o :: _daemon_loop rest
      | .escaped _ => []

end LinkedInScheduler

namespace LinkedInScheduler

/-! ## Theorems for the propagator claims -/

/-- Stepping the store with an operation of another request leaves a request's
slot unchanged. -/
theorem applyCtxOp_frame (op : CtxOp) (σ : CtxStore) (r : Req)
    (h : op.owner ≠ r) : applyCtxOp op σ r = σ r := by
  cases op with
  | set r' c =>
      simp only [CtxOp.owner] at h
      simp [applyCtxOp, fun hh => h (hh : r = r').symm]
      intro hrr
      exact absurd hrr.symm h
  | reset r' tok =>
      simp only [CtxOp.owner] at h
      simp [applyCtxOp]
      intro hrr
      exact absurd hrr.symm h

/-- A request's view of the store after a trace depends on the initial store
only through that request's own slot (every operation either overwrites a slot
with a value independent of the store, or leaves it alone). -/
theorem runCtxOps_read_congr (ops : List CtxOp) (r : Req) :
    ∀ σ₁ σ₂ : CtxStore, σ₁ r = σ₂ r →
      runCtxOps ops σ₁ r = runCtxOps ops σ₂ r := by
  induction ops with
  | nil => intro σ₁ σ₂ hr; exact hr
  | cons op rest ih =>
      intro σ₁ σ₂ hr
      have hstep : applyCtxOp op σ₁ r = applyCtxOp op σ₂ r := by
        cases op with
        | set r' c => simp [applyCtxOp, hr]
        | reset r' tok => simp [applyCtxOp, hr]
      exact ih (applyCtxOp op σ₁) (applyCtxOp op σ₂) hstep

/-- A request's slot after a trace depends only on the subtrace of its own
operations. -/
theorem runCtxOps_project (ops : List CtxOp) (σ : CtxStore) (r : Req) :
    runCtxOps ops σ r = runCtxOps (ops.filter fun op => op.owner = r) σ r := by
  induction ops generalizing σ with
  | nil => rfl
  | cons op rest ih =>
      by_cases h : op.owner = r
      · simp only [runCtxOps, List.foldl_cons, List.filter_cons,
          decide_eq_true h]
        exact ih (applyCtxOp op σ)
      · simp only [runCtxOps, List.foldl_cons, List.filter_cons,
          decide_eq_false h]
        calc (rest.foldl (fun s o => applyCtxOp o s) (applyCtxOp op σ)) r
            = runCtxOps (rest.filter fun o => o.owner = r) (applyCtxOp op σ) r :=
              ih (applyCtxOp op σ)
          _ = runCtxOps (rest.filter fun o => o.owner = r) σ r :=
              runCtxOps_read_congr (rest.filter fun o => o.owner = r) r
                (applyCtxOp op σ) σ (applyCtxOp_frame op σ r h)

/-- C1: Credential isolation.  For any interleaved trace of `set`/`reset`
operations from any requests, a `get()` performed inside request `r` observes
exactly the value produced by `r`'s own operations alone — so it observes only
a credential installed by its own request and never one installed by another
request; in particular, when two distinct requests each install their own
client, each one reads back its own. -/
theorem c1_credential_isolation :
    (∀ (ops : List CtxOp) (σ : CtxStore) (r : Req),
      ctxGet r (runCtxOps ops σ)
        = ctxGet r (runCtxOps (ops.filter fun op => op.owner = r) σ)) ∧
    (∀ (rA rB : Req) (cA cB : LinkedInClient) (σ : CtxStore), rA ≠ rB →
      ctxGet rA (runCtxOps [CtxOp.set rA cA, CtxOp.set rB cB] σ) = some cA ∧
      ctxGet rB (runCtxOps [CtxOp.set rA cA, CtxOp.set rB cB] σ) = some cB) := by
  constructor
  · intro ops σ r
    exact runCtxOps_project ops σ r
  · intro rA rB cA cB σ hne
    constructor
    · simp [ctxGet, runCtxOps, applyCtxOp, hne]
    · simp [ctxGet, runCtxOps, applyCtxOp]

/-- Witness for C1 at concrete inputs: requests 0 and 1 install distinct
clients in an interleaved trace and each reads back its own. -/
theorem c1_credential_isolation_witness :
    ctxGet 0 (runCtxOps
        [CtxOp.set 0 ⟨"tokA", some "pA"⟩, CtxOp.set 1 ⟨"tokB", none⟩]
        (fun _ => none)) = some ⟨"tokA", some "pA"⟩ ∧
    ctxGet 1 (runCtxOps
        [CtxOp.set 0 ⟨"tokA", some "pA"⟩, CtxOp.set 1 ⟨"tokB", none⟩]
        (fun _ => none)) = some ⟨"tokB", none⟩ :=
  c1_credential_isolation.2 0 1 ⟨"tokA", some "pA"⟩ ⟨"tokB", none⟩
    (fun _ => none) (by decide)

/-- C2: Restoration.  For every prior slot value and every body — whether the
body returns normally or raises — after `client_context(access_token,
person_id)` exits, the propagator's visible value equals exactly the value it
had before the call. -/
theorem c2_client_context_restores {ε : Type}
    (access_token : String) (person_id : Option String)
    (body : Option LinkedInClient → Except ε (Option LinkedInClient))
    (slot : Option LinkedInClient) :
    (client_context access_token person_id body slot).2 = slot := by
  cases h : body (some (LinkedInClient.mk access_token person_id)) with
  | ok v => simp [client_context, h]
  | error e => simp [client_context, h]

/-- C3: Unauthenticated failure.  With no client set, `patched_get_client`
raises a `RuntimeError` (never returns a client); with a client set — in
particular one installed by `set_client_for_request` — it returns exactly that
client. -/
theorem c3_unauthenticated_failure :
    (∃ msg, patched_get_client none = .error (.runtimeError msg)) ∧
    (∀ c : LinkedInClient, patched_get_client (some c) = .ok c) ∧
    (∀ (access_token : String) (person_id : Option String),
      patched_get_client (set_client_for_request access_token person_id)
        = .ok { access_token := access_token, person_id := person_id }) := by
  refine ⟨⟨"No LinkedInClient set for this request - is OAuth configured?", rfl⟩,
    fun c => rfl, fun tok pid => rfl⟩

/-! ## Theorems for the thread-affine cache claims -/

/-- A call by thread `t` never changes another thread's cache entry. -/
theorem getDb_cache_frame (open_fails : String → Bool) (p : Option String)
    (t t' : ThreadId) (st : DBState) (hne : t' ≠ t) :
    ((_thread_local_get_db open_fails p t st).2).cache t' = st.cache t' := by
  simp only [_thread_local_get_db]
  cases hc : st.cache t with
  | none =>
      by_cases hf : open_fails (resolvePath p)
      · simp [hf]
      · simp [hf, hne]
  | some h =>
      by_cases hp : h.db_path = resolvePath p
      · simp [hp]
      · by_cases hf : open_fails (resolvePath p)
        · simp [hp, hf]
        · simp [hp, hf, hne]

/-- A call by thread `t` only ever closes the handle that was cached for `t`
itself: every newly closed identity is the cached handle's. -/
theorem getDb_closes_only_own (open_fails : String → Bool) (p : Option String)
    (t : ThreadId) (st : DBState) (i : Nat)
    (hmem : i ∈ ((_thread_local_get_db open_fails p t st).2).closed) :
    i ∈ st.closed ∨ ∃ h, st.cache t = some h ∧ i = h.id := by
  simp only [_thread_local_get_db] at hmem
  cases hc : st.cache t with
  | none =>
      rw [hc] at hmem
      by_cases hf : open_fails (resolvePath p)
      · simp [hf] at hmem
        exact Or.inl hmem
      · simp [hf] at hmem
        exact Or.inl hmem
  | some h =>
      rw [hc] at hmem
      by_cases hp : h.db_path = resolvePath p
      · simp [hp] at hmem
        exact Or.inl hmem
      · by_cases hf : open_fails (resolvePath p)
        · simp [hp, hf] at hmem
          rcases hmem with hmem | hmem
          · exact Or.inr ⟨h, rfl, hmem⟩
          · exact Or.inl hmem
        · simp [hp, hf] at hmem
          rcases hmem with hmem | hmem
          · exact Or.inr ⟨h, rfl, hmem⟩
          · exact Or.inl hmem

/-- C4: Thread-affine cache path behavior.  On a thread `t`: a cache hit
(stored path equals the resolved path) returns the cached handle with no state
change; a miss with an empty cache opens, caches and returns a fresh handle;
a miss with a cached handle for another path closes that handle (its identity
joins `closed`) and opens, caches and returns a fresh one; and a subsequent
request for the old path yields a handle distinct from the closed one. -/
theorem c4_cache_path_behavior (p : Option String) (t : ThreadId) (st : DBState) :
    (∀ h, st.cache t = some h → h.db_path = resolvePath p →
      _thread_local_get_db openAlwaysSucceeds p t st = (Except.ok h, st)) ∧
    (st.cache t = none →
      _thread_local_get_db openAlwaysSucceeds p t st
        = (Except.ok { id := st.nextId, db_path := resolvePath p },
           { cache := fun t' => if t' = t then
                 some { id := st.nextId, db_path := resolvePath p }
               else st.cache t',
             nextId := st.nextId + 1, closed := st.closed })) ∧
    (∀ h, st.cache t = some h → h.db_path ≠ resolvePath p →
      _thread_local_get_db openAlwaysSucceeds p t st
        = (Except.ok { id := st.nextId, db_path := resolvePath p },
           { cache := fun t' => if t' = t then
                 some { id := st.nextId, db_path := resolvePath p }
               else st.cache t',
             nextId := st.nextId + 1, closed := h.id :: st.closed })) ∧
    (∀ h, st.cache t = some h → h.db_path ≠ resolvePath p → h.id < st.nextId →
      ∃ h2, (_thread_local_get_db openAlwaysSucceeds (some h.db_path) t
          (_thread_local_get_db openAlwaysSucceeds p t st).2).1 = Except.ok h2 ∧
        h2.id ≠ h.id ∧ h2 ≠ h) := by
  refine ⟨?_, ?_, ?_, ?_⟩
  · intro h hc hp
    simp [_thread_local_get_db, hc, hp]
  · intro hc
    simp [_thread_local_get_db, hc, openAlwaysSucceeds]
  · intro h hc hp
    simp [_thread_local_get_db, hc, hp, openAlwaysSucceeds]
  · intro h hc hp hid
    have hfirst :
        _thread_local_get_db openAlwaysSucceeds p t st
          = (Except.ok { id := st.nextId, db_path := resolvePath p },
             { cache := fun t' => if t' = t then
                   some { id := st.nextId, db_path := resolvePath p }
                 else st.cache t',
               nextId := st.nextId + 1, closed := h.id :: st.closed }) := by
      simp [_thread_local_get_db, hc, hp, openAlwaysSucceeds]
    rw [hfirst]
    by_cases hsame : resolvePath p = resolvePath (some h.db_path)
    · refine ⟨{ id := st.nextId, db_path := resolvePath p }, ?_, ?_, ?_⟩
      · simp [_thread_local_get_db, hsame]
      · exact fun hcontra => absurd (hcontra ▸ hid) (lt_irrefl _)
      · intro hcontra
        exact hp ((congrArg DBHandle.db_path hcontra).symm)
    · refine ⟨{ id := st.nextId + 1, db_path := resolvePath (some h.db_path) },
        ?_, ?_, ?_⟩
      · simp [_thread_local_get_db, hsame, openAlwaysSucceeds]
      · intro hcontra
        have : h.id < st.nextId + 1 := Nat.lt_succ_of_lt hid
        exact absurd (hcontra ▸ this) (lt_irrefl _)
      · intro hcontra
        have hids : st.nextId + 1 = h.id := congrArg DBHandle.id hcontra
        have : h.id < st.nextId + 1 := Nat.lt_succ_of_lt hid
        exact absurd (hids ▸ this) (lt_irrefl _)

/-- Witness for C4 at concrete inputs: thread 0 holds handle 3 for path
`"a"`; requesting path `"b"` closes handle 3 and returns the fresh handle 5,
and a subsequent request for `"a"` returns a handle distinct from handle 3. -/
theorem c4_cache_path_behavior_witness :
    (_thread_local_get_db openAlwaysSucceeds (some "b") 0 stateCachedA
      = (Except.ok { id := 5, db_path := "b" },
         { cache := fun t' => if t' = 0 then some { id := 5, db_path := "b" }
             else stateCachedA.cache t',
           nextId := 6, closed := [3] })) ∧
    (∃ h2, (_thread_local_get_db openAlwaysSucceeds (some "a") 0
        (_thread_local_get_db openAlwaysSucceeds (some "b") 0 stateCachedA).2).1
          = Except.ok h2 ∧
      h2.id ≠ 3 ∧ h2 ≠ { id := 3, db_path := "a" }) :=
  ⟨(c4_cache_path_behavior (some "b") 0 stateCachedA).2.2.1
      { id := 3, db_path := "a" } rfl (by decide),
   (c4_cache_path_behavior (some "b") 0 stateCachedA).2.2.2
      { id := 3, db_path := "a" } rfl (by decide) (by decide)⟩

/-- C5 evaluated at the failing input (the claim is right, the code slips):
thread 0 holds handle 3 for path `"a"`; a request for path `"b"` whose open
fails propagates the error and closes handle 3, but `_thread_local.db` still
holds the now-closed handle 3 — the cache entry is NOT left empty — and a
subsequent request for `"a"` returns that closed handle instead of opening a
new one. -/
theorem c5_open_failure_poisons_cache :
    (_thread_local_get_db (fun q => q == "b") (some "b") 0 stateCachedA).1
      = Except.error () ∧
    ((_thread_local_get_db (fun q => q == "b") (some "b") 0 stateCachedA).2).cache 0
      = some { id := 3, db_path := "a" } ∧
    3 ∈ ((_thread_local_get_db (fun q => q == "b") (some "b") 0 stateCachedA).2).closed ∧
    (_thread_local_get_db (fun q => q == "b") (some "a") 0
        (_thread_local_get_db (fun q => q == "b") (some "b") 0 stateCachedA).2).1
      = Except.ok { id := 3, db_path := "a" } := by
  refine ⟨rfl, rfl, ?_, rfl⟩
  simp [_thread_local_get_db, stateCachedA, resolvePath]

/-- C8: Thread affinity.  A call by one thread never changes or closes what is
cached for another thread, and two distinct threads requesting the same path
from empty caches receive distinct handle objects. -/
theorem c8_thread_affinity :
    (∀ (open_fails : String → Bool) (p : Option String) (t t' : ThreadId)
        (st : DBState), t' ≠ t →
      ((_thread_local_get_db open_fails p t st).2).cache t' = st.cache t') ∧
    (∀ (open_fails : String → Bool) (p : Option String) (t : ThreadId)
        (st : DBState) (i : Nat),
      i ∈ ((_thread_local_get_db open_fails p t st).2).closed →
      i ∈ st.closed ∨ ∃ h, st.cache t = some h ∧ i = h.id) ∧
    (∀ (p : Option String) (t₁ t₂ : ThreadId) (st : DBState), t₂ ≠ t₁ →
      st.cache t₁ = none → st.cache t₂ = none →
      ∃ h₁ h₂,
        (_thread_local_get_db openAlwaysSucceeds p t₁ st).1 = Except.ok h₁ ∧
        (_thread_local_get_db openAlwaysSucceeds p t₂
            (_thread_local_get_db openAlwaysSucceeds p t₁ st).2).1
          = Except.ok h₂ ∧
        h₁.id ≠ h₂.id ∧ h₁ ≠ h₂) := by
  refine ⟨getDb_cache_frame, getDb_closes_only_own, ?_⟩
  intro p t₁ t₂ st hne hc1 hc2
  have hfirst :
      _thread_local_get_db openAlwaysSucceeds p t₁ st
        = (Except.ok { id := st.nextId, db_path := resolvePath p },
           { cache := fun t' => if t' = t₁ then
                 some { id := st.nextId, db_path := resolvePath p }
               else st.cache t',
             nextId := st.nextId + 1, closed := st.closed }) := by
    simp [_thread_local_get_db, hc1, openAlwaysSucceeds]
  refine ⟨{ id := st.nextId, db_path := resolvePath p },
    { id := st.nextId + 1, db_path := resolvePath p }, ?_, ?_, ?_, ?_⟩
  · rw [hfirst]
  · rw [hfirst]
    simp [_thread_local_get_db, hne, hc2, openAlwaysSucceeds]
  · exact Nat.ne_of_lt (Nat.lt_succ_self _)
  · intro hcontra
    exact absurd (congrArg DBHandle.id hcontra)
      (Nat.ne_of_lt (Nat.lt_succ_self _))

/-- Witness for C8 at concrete inputs: threads 0 and 1 requesting path `"a"`
from empty caches receive distinct handles. -/
theorem c8_thread_affinity_witness :
    ∃ h₁ h₂,
      (_thread_local_get_db openAlwaysSucceeds (some "a") 0 stateEmpty).1
        = Except.ok h₁ ∧
      (_thread_local_get_db openAlwaysSucceeds (some "a") 1
          (_thread_local_get_db openAlwaysSucceeds (some "a") 0 stateEmpty).2).1
        = Except.ok h₂ ∧
      h₁.id ≠ h₂.id ∧ h₁ ≠ h₂ :=
  c8_thread_affinity.2.2 (some "a") 0 1 stateEmpty (by decide) rfl rfl

/-- C9: Implicit — an empty-string `db_path` is falsy in Python, so it falls
back to `DB_PATH` exactly as `None` does: the call behaves identically. -/
theorem c9_empty_path_default :
    resolvePath (some "") = DB_PATH ∧
    resolvePath (some "") = resolvePath none ∧
    ∀ (open_fails : String → Bool) (t : ThreadId) (st : DBState),
      _thread_local_get_db open_fails (some "") t st
        = _thread_local_get_db open_fails none t st :=
  ⟨rfl, rfl, fun _ _ _ => rfl⟩

/-! ## Theorems for the daemon claims -/

/-- C6: Daemon skip on missing credential.  With the token store empty,
credential resolution inside the tick raises a `RuntimeError` before the work
unit can be invoked (the outcome is the same for every work unit), the loop
body catches it at the low-severity `debug` handler with no exception
escaping, and the loop proceeds to the next tick. -/
theorem c6_daemon_skip_no_credential :
    (∃ msg, _build_client_from_store none
      = Except.error (PyExc.runtimeError msg)) ∧
    (∀ workUnit : LinkedInClient → Except PyExc Unit,
      ∃ msg, run_once none workUnit = Except.error (PyExc.runtimeError msg)) ∧
    (∀ workUnit : LinkedInClient → Except PyExc Unit,
      run_once none workUnit = run_once none (fun _ => Except.ok ())) ∧
    (∀ workUnit : LinkedInClient → Except PyExc Unit,
      _daemon_loop_body (run_once none workUnit)
        = TickResult.completed TickOutcome.skipLoggedDebug) ∧
    (∀ (workUnit : LinkedInClient → Except PyExc Unit)
        (rest : List (Except PyExc Unit)),
      _daemon_loop (run_once none workUnit :: rest)
        = TickOutcome.skipLoggedDebug :: _daemon_loop rest) :=
  ⟨⟨"No LinkedIn credentials in token store - authenticate via OAuth first", rfl⟩,
   fun _ => ⟨"No LinkedIn credentials in token store - authenticate via OAuth first", rfl⟩,
   fun _ => rfl, fun _ => rfl, fun _ _ => rfl⟩

/-- C7 counterexample: a work-unit failure that happens to be a `RuntimeError`
(the store does hold a credential, so this is not a credential skip) is caught
by the `except RuntimeError` handler and logged at the same low `debug`
severity as a credential skip — refuting "a WorkUnitFailure (any
non-credential failure) is logged at higher severity than a credential skip". -/
theorem c7_counterexample_work_runtimeError :
    run_once (some ("tok", none))
        (fun _ => Except.error (PyExc.runtimeError "boom"))
      = Except.error (PyExc.runtimeError "boom") ∧
    _daemon_loop_body (run_once (some ("tok", none))
        (fun _ => Except.error (PyExc.runtimeError "boom")))
      = TickResult.completed TickOutcome.skipLoggedDebug ∧
    TickResult.completed TickOutcome.skipLoggedDebug
      ≠ TickResult.completed TickOutcome.failLoggedError := by
  refine ⟨rfl, rfl, by decide⟩

/-- C7 (amended): every exception raised during a tick is caught by the loop
body — none escapes, and the loop always proceeds through every tick — and a
failure that is not a `RuntimeError` is logged at the higher `error` severity;
a `RuntimeError`, whatever raised it, is logged at the low `debug` severity of
a credential skip. -/
theorem c7_daemon_never_dies :
    (∀ tick : Except PyExc Unit,
      ∃ o, _daemon_loop_body tick = TickResult.completed o) ∧
    (∀ ticks : List (Except PyExc Unit),
      (_daemon_loop ticks).length = ticks.length) ∧
    (∀ msg, _daemon_loop_body (Except.error (PyExc.otherExc msg))
      = TickResult.completed TickOutcome.failLoggedError) ∧
    (∀ msg, _daemon_loop_body (Except.error (PyExc.runtimeError msg))
      = TickResult.completed TickOutcome.skipLoggedDebug) := by
  refine ⟨?_, ?_, fun _ => rfl, fun _ => rfl⟩
  · intro tick
    match tick with
    | .ok _ => exact ⟨TickOutcome.ranOk, rfl⟩
    | .error (.runtimeError m) => exact ⟨TickOutcome.skipLoggedDebug, rfl⟩
    | .error (.otherExc m) => exact ⟨TickOutcome.failLoggedError, rfl⟩
  · intro ticks
    induction ticks with
    | nil => rfl
    | cons tick rest ih =>
        match tick with
        | .ok _ => simp [_daemon_loop, _daemon_loop_body, ih]
        | .error (.runtimeError m) => simp [_daemon_loop, _daemon_loop_body, ih]
        | .error (.otherExc m) => simp [_daemon_loop, _daemon_loop_body, ih]

/-- C10: Implicit — the daemon's client drops the subject identifier: the
stored credential's second component is discarded and the client is built from
the access token only, so its `person_id` is `None` even when the store
provides a subject. -/
theorem c10_daemon_client_drops_subject :
    ∀ (tok : String) (sid : Option String),
      _build_client_from_store (some (tok, sid))
        = Except.ok { access_token := tok, person_id := none } :=
  fun _ _ => rfl

end LinkedInScheduler
